import Mathlib

/-!
Verification of the bridge frontend repository: a shallow embedding of the
serverless fee-quote API handler (`src/api/index.js`) and of the
`CoinSelection` React component, together with theorems about their
observable behaviour.
-/

namespace BridgeFrontend

/-! ### API handler (`src/api/index.js`) -/

/-- A `WhitelistToken` event as returned by `bridgeAdmin.queryFilter`: the log
coordinates (`blockNumber`, `transactionIndex`, `logIndex`) together with the
decoded `args` fields used by the handler (`chainId`, `l1Token`, `l2Token`). -/
structure WhitelistEvent where
  blockNumber : Nat
  transactionIndex : Nat
  logIndex : Nat
  chainId : Nat
  l1Token : String
  l2Token : String
  deriving DecidableEq

/-- The comparator passed to `events.sort` in `getTokenDetails`
(src/api/index.js lines 39-43): negative when `a` sorts before `b`,
i.e. most recent event first. -/
def sortComparator (a b : WhitelistEvent) : Int :=
  if b.blockNumber ≠ a.blockNumber then (b.blockNumber : Int) - (a.blockNumber : Int)
  else if b.transactionIndex ≠ a.transactionIndex then
    (b.transactionIndex : Int) - (a.transactionIndex : Int)
  else (b.logIndex : Int) - (a.logIndex : Int)

/-- `a` may stay before (or at) `b` in the sorted array: comparator value `≤ 0`. -/
def eventBefore (a b : WhitelistEvent) : Prop := sortComparator a b ≤ 0

instance : DecidableRel eventBefore := fun a b =>
  inferInstanceAs (Decidable (sortComparator a b ≤ 0))

instance : IsTotal WhitelistEvent eventBefore :=
  ⟨fun a b => by
    unfold eventBefore sortComparator
    split_ifs <;> omega⟩

instance : IsTrans WhitelistEvent eventBefore :=
  ⟨fun a b c hab hbc => by
    unfold eventBefore sortComparator at hab hbc ⊢
    split_ifs at hab hbc ⊢ <;> omega⟩

/-- The lexicographic order on `(blockNumber, transactionIndex, logIndex)`. -/
def lexLe (a b : WhitelistEvent) : Prop :=
  a.blockNumber < b.blockNumber ∨
    (a.blockNumber = b.blockNumber ∧
      (a.transactionIndex < b.transactionIndex ∨
        (a.transactionIndex = b.transactionIndex ∧ a.logIndex ≤ b.logIndex)))

lemma eventBefore_iff_lexLe {a b : WhitelistEvent} : eventBefore a b ↔ lexLe b a := by
  unfold eventBefore sortComparator lexLe
  split_ifs <;> omega

lemma lexLe_refl (a : WhitelistEvent) : lexLe a a :=
  Or.inr ⟨rfl, Or.inr ⟨rfl, le_refl _⟩⟩

/-- The event filter applied by the handler: the node-side
`WhitelistToken(undefined, undefined, l2Token)` topic filter composed with the
handler's own `event.args.chainId.toString() === chainId` filter
(src/api/index.js lines 31-34). -/
def matchesQuery (l2Token chainId : String) (e : WhitelistEvent) : Bool :=
  e.l2Token == l2Token && toString e.chainId == chainId

/-- `getTokenDetails` (src/api/index.js lines 27-48): filter the whitelist
events by L2 token and chain id, fail when none remains, otherwise sort from
most recent to oldest (modelling `Array.prototype.sort` by a sorting algorithm
that is sorted with respect to the same comparator) and return the first
event. -/
def getTokenDetails (chainEvents : List WhitelistEvent) (l2Token chainId : String) :
    Except String WhitelistEvent :=
  if (chainEvents.filter (matchesQuery l2Token chainId)).length = 0 then
    Except.error ("No whitelisted token found")
  else
    match (chainEvents.filter (matchesQuery l2Token chainId)).insertionSort eventBefore with
    | [] => Except.error ("No whitelisted token found")
    | e :: _ => Except.ok e

/-- The three events of the spec example: `(block, tx, log)` coordinates
`(10,0,0)`, `(10,0,1)` and `(9,5,5)`, all for chain id 1 and L2 token `0xBB`. -/
def ev1000 : WhitelistEvent :=
  { blockNumber := 10, transactionIndex := 0, logIndex := 0, chainId := 1
    l1Token := ("0xA1"), l2Token := ("0xBB") }

def ev1001 : WhitelistEvent :=
  { blockNumber := 10, transactionIndex := 0, logIndex := 1, chainId := 1
    l1Token := ("0xB1"), l2Token := ("0xBB") }

def ev955 : WhitelistEvent :=
  { blockNumber := 9, transactionIndex := 5, logIndex := 5, chainId := 1
    l1Token := ("0xC1"), l2Token := ("0xBB") }

/-- **C1.** For every non-empty list of whitelist events matching the given L2
token address and chain id, `getTokenDetails` succeeds and returns an event of
the list that is maximal under the lexicographic order on
`(blockNumber, transactionIndex, logIndex)`; the handler resolves the L1 token
from that event. -/
theorem getTokenDetails_selects_max (chainEvents : List WhitelistEvent)
    (l2Token chainId : String) (hne : chainEvents ≠ [])
    (hall : ∀ e ∈ chainEvents, matchesQuery l2Token chainId e = true) :
    ∃ ev, getTokenDetails chainEvents l2Token chainId = Except.ok ev ∧
      ev ∈ chainEvents ∧ ∀ e ∈ chainEvents, lexLe e ev := by
  have hfilter : chainEvents.filter (matchesQuery l2Token chainId) = chainEvents :=
    List.filter_eq_self.mpr hall
  have hlen : chainEvents.length ≠ 0 := by
    simpa [List.length_eq_zero] using hne
  cases hs : chainEvents.insertionSort eventBefore with
  | nil =>
    exfalso
    have hl := List.length_insertionSort eventBefore chainEvents
    rw [hs] at hl
    exact hlen hl.symm
  | cons ev rest =>
    have hval : getTokenDetails chainEvents l2Token chainId = Except.ok ev := by
      unfold getTokenDetails
      rw [hfilter, if_neg hlen, hs]
    refine ⟨ev, hval, ?_, ?_⟩
    · have : ev ∈ chainEvents.insertionSort eventBefore := by
        rw [hs]; exact List.mem_cons_self ev rest
      exact (List.mem_insertionSort eventBefore).mp this
    · intro e he
      have he' : e ∈ ev :: rest := by
        rw [← hs]
        exact (List.mem_insertionSort eventBefore).mpr he
      have hsorted : List.Sorted eventBefore (ev :: rest) := by
        rw [← hs]
        exact List.sorted_insertionSort eventBefore chainEvents
      rcases List.mem_cons.mp he' with rfl | hmem
      · exact lexLe_refl _
      · exact eventBefore_iff_lexLe.mp (List.rel_of_sorted_cons hsorted e hmem)

/-- Witness for C1 at the spec's example: among `(10,0,0)`, `(10,0,1)` and
`(9,5,5)` the handler selects `(10,0,1)`. -/
theorem getTokenDetails_selects_max_witness :
    (∃ ev, getTokenDetails [ev1000, ev1001, ev955] ("0xBB") ("1") = Except.ok ev ∧
        ev ∈ [ev1000, ev1001, ev955] ∧ ∀ e ∈ [ev1000, ev1001, ev955], lexLe e ev) ∧
      getTokenDetails [ev1000, ev1001, ev955] ("0xBB") ("1") = Except.ok ev1001 :=
  ⟨getTokenDetails_selects_max [ev1000, ev1001, ev955] ("0xBB") ("1")
      (by decide) (by decide),
    by rfl⟩

/-- A query-string parameter as delivered by the web framework: absent
parameters are `Option.none`; present ones are either a plain string or some
other shape (e.g. a repeated parameter parsed as an array). -/
inductive QueryValue
  | str (s : String)
  | nonStr
  deriving DecidableEq

/-- `isString` (src/api/index.js line 51): `typeof input === "string"`. -/
def isString : Option QueryValue → Bool
  | some (QueryValue.str _) => true
  | _ => false

/-- The query parameters destructured from `request.query`. -/
structure Request where
  amount : Option QueryValue
  l2Token : Option QueryValue
  chainId : Option QueryValue
  deriving DecidableEq

/-- One leg (`slow` or `instant`) of the SDK's deposit fee details. -/
structure FeeDetail where
  pct : Int
  deriving DecidableEq

/-- The value returned by `sdk.across.gasFeeCalculator.getDepositFeesDetails`. -/
structure DepositFeesDetails where
  slow : FeeDetail
  instant : FeeDetail
  deriving DecidableEq

/-- The JSON body sent with status 200. -/
structure ResponseJson where
  slowFeePct : Int
  fastFeePct : Int
  deriving DecidableEq

/-- The network calls the handler can issue, in order: the
`bridgeAdmin.queryFilter` event query (the chain-id filtering is local, so the
call carries only the L2 token of the topic filter) and the SDK fee
computation with the amount and the token address actually passed. -/
inductive NetworkCall
  | queryFilter (l2Token : String)
  | getDepositFeesDetails (amount : String) (tokenAddress : String)
  deriving DecidableEq

/-- The handler's observable outcome: its result (the 200 JSON body or the
thrown error message) together with the ordered trace of network calls. -/
structure HandlerOutcome where
  result : Except String ResponseJson
  calls : List NetworkCall

/-- Modelled from the spec: `sdk.across.constants.ADDRESSES.WETH`, the
wrapped-ETH token address of the external SDK's constant table. -/
def ADDRESSES_WETH : String := "0xC02aaA39b223FE8D0A0e5C4F27eAD9083C756Cc2"

/-- Modelled from the spec: `sdk.across.constants.ADDRESSES.ETH`, the
canonical native-ETH sentinel address of the external SDK's constant table. -/
def ADDRESSES_ETH : String := "0x0000000000000000000000000000000000000000"

/-- The request handler (src/api/index.js lines 5-23), parameterised by the
on-chain event log and by the SDK fee oracle (a function from amount and token
address to fee details). It validates the query parameters, resolves the L1
token via `getTokenDetails`, substitutes the native-ETH sentinel for the
wrapped-ETH address, queries the SDK and answers with the two percentages.
The first `if` on `l1Token` mirrors the source's no-op reassignment on
line 13. -/
def handler (chainEvents : List WhitelistEvent)
    (fees : String → String → DepositFeesDetails) (req : Request) : HandlerOutcome :=
  if !(isString req.amount) || !(isString req.l2Token) || !(isString req.chainId) then
    { result := Except.error ("Must provide amount and token as query params"), calls := [] }
  else
    match req.amount, req.l2Token, req.chainId with
    | some (QueryValue.str amount), some (QueryValue.str l2Token),
        some (QueryValue.str chainId) =>
      match getTokenDetails chainEvents l2Token chainId with
      | Except.error msg =>
        { result := Except.error msg, calls := [NetworkCall.queryFilter l2Token] }
      | Except.ok ev =>
        let l1Token := if ev.l1Token = ADDRESSES_WETH then ADDRESSES_WETH else ev.l1Token
        let sdkToken := if l1Token = ADDRESSES_WETH then ADDRESSES_ETH else l1Token
        let d := fees amount sdkToken
        { result := Except.ok { slowFeePct := d.slow.pct, fastFeePct := d.instant.pct },
          calls := [NetworkCall.queryFilter l2Token,
            NetworkCall.getDepositFeesDetails amount sdkToken] }
    | _, _, _ =>
      { result := Except.error ("Must provide amount and token as query params"), calls := [] }

/-- **C2.** If any of `amount`, `l2Token`, `chainId` is missing or not a
string, the handler signals the validation error and its network-call trace is
empty: no event query and no fee computation is attempted. -/
theorem handler_rejects_nonstring (chainEvents : List WhitelistEvent)
    (fees : String → String → DepositFeesDetails) (req : Request)
    (h : isString req.amount = false ∨ isString req.l2Token = false ∨
      isString req.chainId = false) :
    (handler chainEvents fees req).result =
        Except.error ("Must provide amount and token as query params") ∧
      (handler chainEvents fees req).calls = [] := by
  have hcond : (!(isString req.amount) || !(isString req.l2Token) ||
      !(isString req.chainId)) = true := by
    rcases h with h | h | h <;> simp [h]
  unfold handler
  rw [if_pos hcond]
  exact ⟨rfl, rfl⟩

/-- A fee oracle used by the concrete witnesses. -/
def demoFees : String → String → DepositFeesDetails :=
  fun _ _ => { slow := { pct := 3 }, instant := { pct := 5 } }

/-- Witness for C2: a request with `amount` missing is rejected with an empty
call trace. -/
theorem handler_rejects_nonstring_witness :
    (handler [ev1000] demoFees
        { amount := none, l2Token := some (QueryValue.str ("0xBB")),
          chainId := some (QueryValue.str ("1")) }).result =
        Except.error ("Must provide amount and token as query params") ∧
      (handler [ev1000] demoFees
        { amount := none, l2Token := some (QueryValue.str ("0xBB")),
          chainId := some (QueryValue.str ("1")) }).calls = [] :=
  handler_rejects_nonstring [ev1000] demoFees
    { amount := none, l2Token := some (QueryValue.str ("0xBB")),
      chainId := some (QueryValue.str ("1")) }
    (Or.inl rfl)

/-- **C3.** With valid string parameters, if no whitelist event matches both
the L2 token and the chain id, the handler signals the
"No whitelisted token found" error, returns no fee quote, and never reaches
the SDK fee call. -/
theorem handler_no_matching_event (chainEvents : List WhitelistEvent)
    (fees : String → String → DepositFeesDetails) (req : Request)
    (amount l2Token chainId : String)
    (hA : req.amount = some (QueryValue.str amount))
    (hB : req.l2Token = some (QueryValue.str l2Token))
    (hC : req.chainId = some (QueryValue.str chainId))
    (hempty : chainEvents.filter (matchesQuery l2Token chainId) = []) :
    (handler chainEvents fees req).result =
        Except.error ("No whitelisted token found") ∧
      (handler chainEvents fees req).calls = [NetworkCall.queryFilter l2Token] ∧
      ∀ a t, NetworkCall.getDepositFeesDetails a t ∉ (handler chainEvents fees req).calls := by
  have hdet : getTokenDetails chainEvents l2Token chainId =
      Except.error ("No whitelisted token found") := by
    unfold getTokenDetails
    rw [hempty]
    rfl
  refine ⟨?_, ?_, ?_⟩ <;> simp [handler, hA, hB, hC, isString, hdet]

/-- Witness for C3: one whitelist event for chain id 1, queried with chain id
2, is rejected with "No whitelisted token found" and no SDK fee call. -/
theorem handler_no_matching_event_witness :
    (handler [ev1000] demoFees
        { amount := some (QueryValue.str ("7")), l2Token := some (QueryValue.str ("0xBB")),
          chainId := some (QueryValue.str ("2")) }).result =
        Except.error ("No whitelisted token found") ∧
      (handler [ev1000] demoFees
        { amount := some (QueryValue.str ("7")), l2Token := some (QueryValue.str ("0xBB")),
          chainId := some (QueryValue.str ("2")) }).calls =
        [NetworkCall.queryFilter ("0xBB")] ∧
      ∀ a t, NetworkCall.getDepositFeesDetails a t ∉
        (handler [ev1000] demoFees
          { amount := some (QueryValue.str ("7")), l2Token := some (QueryValue.str ("0xBB")),
            chainId := some (QueryValue.str ("2")) }).calls :=
  handler_no_matching_event [ev1000] demoFees
    { amount := some (QueryValue.str ("7")), l2Token := some (QueryValue.str ("0xBB")),
      chainId := some (QueryValue.str ("2")) }
    ("7") ("0xBB") ("2") rfl rfl rfl (by rfl)

/-- **C8.** When the resolved L1 token equals the wrapped-ETH address, the
handler passes the canonical native-ETH sentinel to the SDK fee call;
otherwise it passes the resolved L1 token unchanged. -/
theorem handler_weth_substitution (chainEvents : List WhitelistEvent)
    (fees : String → String → DepositFeesDetails) (req : Request)
    (amount l2Token chainId : String) (ev : WhitelistEvent)
    (hA : req.amount = some (QueryValue.str amount))
    (hB : req.l2Token = some (QueryValue.str l2Token))
    (hC : req.chainId = some (QueryValue.str chainId))
    (hok : getTokenDetails chainEvents l2Token chainId = Except.ok ev) :
    (handler chainEvents fees req).calls =
      [NetworkCall.queryFilter l2Token,
        NetworkCall.getDepositFeesDetails amount
          (if ev.l1Token = ADDRESSES_WETH then ADDRESSES_ETH else ev.l1Token)] := by
  by_cases hW : ev.l1Token = ADDRESSES_WETH <;>
    simp [handler, hA, hB, hC, isString, hok, hW]

/-- A whitelist event resolving to the wrapped-ETH address, for the C8
witness. -/
def evWeth : WhitelistEvent :=
  { blockNumber := 5, transactionIndex := 0, logIndex := 0, chainId := 1
    l1Token := ADDRESSES_WETH, l2Token := ("0xBB") }

/-- Witness for C8: an event whose L1 token is the wrapped-ETH address makes
the handler pass the native-ETH sentinel to the fee call. -/
theorem handler_weth_substitution_witness :
    (handler [evWeth] demoFees
        { amount := some (QueryValue.str ("7")), l2Token := some (QueryValue.str ("0xBB")),
          chainId := some (QueryValue.str ("1")) }).calls =
      [NetworkCall.queryFilter ("0xBB"),
        NetworkCall.getDepositFeesDetails ("7") ADDRESSES_ETH] := by
  rw [handler_weth_substitution [evWeth] demoFees
    { amount := some (QueryValue.str ("7")), l2Token := some (QueryValue.str ("0xBB")),
      chainId := some (QueryValue.str ("1")) }
    ("7") ("0xBB") ("1") evWeth rfl rfl rfl (by rfl)]
  simp [evWeth]

/-! ### `CoinSelection` component (`src/unnamed/part_000`) -/

/-- A token descriptor from the bridgeable-token list. -/
structure TokenInfo where
  address : String
  symbol : String
  name : String
  logoURI : String
  decimals : Nat
  deriving DecidableEq

/-- The component's error state: either the `ParsingError` thrown by the
`utils` parser or the `Error("Insufficient balance.")` set by the balance
check. -/
inductive AppError
  | parsingError
  | insufficientBalance
  deriving DecidableEq

/-- The component state the claims are about: the displayed input string, the
committed amount (an arbitrary-precision integer in the token's smallest
unit) and the current error. -/
structure CoinState where
  inputAmount : String
  amount : Int
  error : Option AppError
  deriving DecidableEq

/-- Split a character list at every `'.'` (the fields of a decimal string). -/
def splitOnDot : List Char → List (List Char)
  | [] => [[]]
  | c :: cs =>
    if c = '.' then [] :: splitOnDot cs
    else
      match splitOnDot cs with
      | [] => [[c]]
      | p :: ps => (c :: p) :: ps

/-- The numeric value of a digit string. -/
def digitsToNat (cs : List Char) : Nat :=
  cs.foldl (fun acc c => 10 * acc + (c.toNat - ('0').toNat)) 0

/-- Modelled from the spec: `parseUnits` is imported from `utils` (whose file
is not under `src/`) and wraps `ethers.utils.parseUnits`: it parses a decimal
string into an arbitrary-precision integer scaled by `10 ^ decimals`, failing
on malformed input or when the fractional part has more digits than
`decimals`. `parseUnitsChars` handles the digits after the optional sign. -/
def parseUnitsChars (sign : Int) (cs : List Char) (decimals : Nat) : Except Unit Int :=
  match splitOnDot cs with
  | [whole] =>
    if whole ≠ [] ∧ whole.all Char.isDigit then
      Except.ok (sign * (digitsToNat whole : Int) * (10 : Int) ^ decimals)
    else Except.error ()
  | [whole, frac] =>
    if (whole ≠ [] ∨ frac ≠ []) ∧ whole.all Char.isDigit ∧ frac.all Char.isDigit ∧
        frac.length ≤ decimals then
      Except.ok (sign * ((digitsToNat whole : Int) * (10 : Int) ^ decimals +
        (digitsToNat frac : Int) * (10 : Int) ^ (decimals - frac.length)))
    else Except.error ()
  | _ => Except.error ()

/-- Modelled from the spec: parse a decimal string (with optional leading
minus sign) into an integer scaled by `10 ^ decimals`. -/
def parseUnits (value : String) (decimals : Nat) : Except Unit Int :=
  match value.toList with
  | '-' :: rest => parseUnitsChars (-1) rest decimals
  | chars => parseUnitsChars 1 chars decimals

/-- Modelled from the spec: `formatUnits` from `utils` wraps
`ethers.utils.formatUnits`: it renders an integer amount as a decimal string
at the given precision, keeping at least one fractional digit. -/
def formatUnits (amount : Int) (decimals : Nat) : String :=
  let sign := if amount < 0 then ("-") else ("")
  let n := amount.natAbs
  let base := (10 : Nat) ^ decimals
  let wholePart := Nat.repr (n / base)
  let fracRaw := (Nat.repr (n % base)).toList
  let padded := List.replicate (decimals - fracRaw.length) ('0') ++ fracRaw
  let trimmed := (padded.reverse.dropWhile (fun c => c == '0')).reverse
  sign ++ wholePart ++ (".") ++
    String.mk (if trimmed = [] then [('0')] else trimmed)

/-- `FEE_ESTIMATION` (src/unnamed/part_000 line 29): the fixed fee-estimation
buffer reserved from the native-asset balance, as a decimal ether string. -/
def FEE_ESTIMATION : String := ".004"

/-- `ethers.utils.parseEther(FEE_ESTIMATION)`: the fee-estimation buffer in
wei (`parseEther` is `parseUnits` at 18 decimals). -/
def feeEstimationWei : Int :=
  match parseUnits FEE_ESTIMATION 18 with
  | Except.ok v => v
  | Except.error _ => 0

lemma feeEstimationWei_eq : feeEstimationWei = 4 * 10 ^ 15 := by decide

/-- `handleChange` (src/unnamed/part_000 lines 81-100): the amount-field
change handler. It always records the raw input string; an empty string
commits a zero amount and clears the error; otherwise the input is parsed at
the selected token's decimal count, negative results throw and are caught as
a parsing error, successful results are committed (clearing a previous
parsing error but keeping any other error), and parse failures set a parsing
error without touching the committed amount. -/
def handleChange (decimals : Nat) (s : CoinState) (value : String) : CoinState :=
  if value = "" then
    { inputAmount := value, amount := 0, error := none }
  else
    match parseUnits value decimals with
    | Except.ok a =>
      if a < 0 then
        { inputAmount := value, amount := s.amount, error := some AppError.parsingError }
      else
        { inputAmount := value, amount := a,
          error := if s.error = some AppError.parsingError then none else s.error }
    | Except.error _ =>
      { inputAmount := value, amount := s.amount, error := some AppError.parsingError }

/-- The `setError` callback at the top of the insufficient-balance effect
(src/unnamed/part_000 lines 106-111): keep a `ParsingError`, clear any other
error. -/
def clearNonParsingError : Option AppError → Option AppError
  | some AppError.parsingError => some AppError.parsingError
  | _ => none

/-- `tokenList[selectedIndex]?.symbol === "ETH"` (src/unnamed/part_000
line 118): whether the token at the given position is the native asset; a
missing entry compares as `false`. -/
def isEthAt (tokenList : List TokenInfo) (i : Nat) : Bool :=
  match tokenList[i]? with
  | some t => t.symbol == ("ETH")
  | none => false

/-- The insufficient-balance effect body (src/unnamed/part_000 lines
103-131), returning the new error state. With a committed amount and a
non-empty input it first clears any non-parsing error; then, when balances
are loaded and the amount is positive, it looks up the selected token's
balance by position (`findIndex` returning no index, or a balances array too
short, leaves the balance absent and skips the check) and flags
"Insufficient balance." when the amount exceeds the balance, the native
asset's balance being first reduced by the fee-estimation buffer. -/
def checkBalanceEffect (balances : Option (List Int)) (amount : Int) (token : String)
    (tokenList : List TokenInfo) (inputAmount : String) (error : Option AppError) :
    Option AppError :=
  if inputAmount = "" then error
  else
    match balances with
    | none => clearNonParsingError error
    | some bs =>
      if 0 < amount then
        match tokenList.findIdx? (fun tk => tk.address == token) with
        | none => clearNonParsingError error
        | some i =>
          match bs[i]? with
          | none => clearNonParsingError error
          | some balance =>
            if (if isEthAt tokenList i then balance - feeEstimationWei else balance) <
                amount then
              some AppError.insufficientBalance
            else clearNonParsingError error
      else clearNonParsingError error

/-- `handleMaxClick` (src/unnamed/part_000 lines 133-157): with balances
loaded and a token selected, set the committed amount and the input string to
the selected token's full balance, the native asset's balance being first
reduced by the fee-estimation buffer and floored at zero (`max` from `utils`,
modelled from the spec); a missing balance entry commits zero. The result is
`none` when `tokenList[selectedIndex]` is `undefined`, where the source would
throw on `.symbol`. -/
def handleMaxClick (balances : Option (List Int)) (selectedItem : Option TokenInfo)
    (tokenList : List TokenInfo) (s : CoinState) : Option CoinState :=
  match balances, selectedItem with
  | some bs, some sel =>
    match tokenList.findIdx? (fun tk => tk.address == sel.address) with
    | none => none
    | some i =>
      match tokenList[i]? with
      | none => none
      | some t =>
        match bs[i]? with
        | some balance =>
          let capped := if t.symbol == ("ETH") then
              max (balance - feeEstimationWei) 0
            else balance
          some { s with amount := capped, inputAmount := formatUnits capped sel.decimals }
        | none =>
          some { s with amount := 0, inputAmount := formatUnits 0 sel.decimals }
  | _, _ => some s

/-- The fee-quote flags read from the send store. -/
structure Fees where
  isAmountTooLow : Bool
  isLiquidityInsufficient : Bool
  deriving DecidableEq

/-- Which message the `ErrorBox` would show: the current error's message, the
"Bridge fee is high for this amount. Send a larger amount." warning, or the
"Insufficient liquidity for ⟨symbol⟩." warning. -/
inductive DisplayMsg
  | fromError (e : AppError)
  | amountTooLow
  | liquidityInsufficient
  deriving DecidableEq

/-- `errorMsg` (src/unnamed/part_000 lines 158-164): the message candidate,
preferring the explicit error, then the amount-too-low warning, then the
insufficient-liquidity warning. -/
def errorMsg (error : Option AppError) (fees : Option Fees) : Option DisplayMsg :=
  match error with
  | some e => some (DisplayMsg.fromError e)
  | none =>
    match fees with
    | some f =>
      if f.isAmountTooLow then some DisplayMsg.amountTooLow
      else if f.isLiquidityInsufficient then some DisplayMsg.liquidityInsufficient
      else none
    | none => none

/-- `showError` (src/unnamed/part_000 lines 166-169): the error box is
rendered when there is an explicit error, or a fee flag is set and the
committed amount is positive. -/
def showError (error : Option AppError) (fees : Option Fees) (amount : Int) : Bool :=
  error.isSome ||
    ((match fees with | some f => f.isAmountTooLow | none => false) && decide (0 < amount)) ||
    ((match fees with | some f => f.isLiquidityInsufficient | none => false) &&
      decide (0 < amount))

/-- `{showError && <ErrorBox>{errorMsg}</ErrorBox>}` (src/unnamed/part_000
line 231): the message actually displayed. -/
def displayedError (error : Option AppError) (fees : Option Fees) (amount : Int) :
    Option DisplayMsg :=
  if showError error fees amount then errorMsg error fees else none

/-- Demo tokens for the concrete witnesses: a 6-decimal stable token and the
native asset. -/
def usdcToken : TokenInfo :=
  { address := ("0xUSDC"), symbol := ("USDC"), name := ("USD Coin")
    logoURI := ("usdc.svg"), decimals := 6 }

def ethToken : TokenInfo :=
  { address := ("0xWETH"), symbol := ("ETH"), name := ("Ether")
    logoURI := ("eth.svg"), decimals := 18 }

def demoTokenList : List TokenInfo := [usdcToken, ethToken]

/-- A component state with a prior non-parsing error and a nonzero committed
amount, used by the C4 witness. -/
def demoState : CoinState :=
  { inputAmount := ("9"), amount := 9 * 10 ^ 18, error := some AppError.insufficientBalance }

lemma clearNonParsingError_ne_insufficient (error : Option AppError) :
    clearNonParsingError error ≠ some AppError.insufficientBalance := by
  cases error with
  | none => simp [clearNonParsingError]
  | some e => cases e <;> simp [clearNonParsingError]

/-- **C4.** The amount-field change handler: the empty string commits a zero
amount and clears any error; a non-empty string is parsed by `parseUnits` at
the selected token's decimal count and a non-negative result is committed; a
negative parse result is rejected as a parsing error; any parse failure sets
a parsing error and leaves the committed amount unchanged. In particular
`parseUnits` scales `"1.5"` at 2 decimals to `150`. -/
theorem handleChange_spec (decimals : Nat) (s : CoinState) (value : String) :
    (value = "" → handleChange decimals s value =
        { inputAmount := value, amount := 0, error := none }) ∧
    (∀ a, value ≠ "" → parseUnits value decimals = Except.ok a → 0 ≤ a →
        handleChange decimals s value =
          { inputAmount := value, amount := a,
            error := if s.error = some AppError.parsingError then none else s.error }) ∧
    (∀ a, value ≠ "" → parseUnits value decimals = Except.ok a → a < 0 →
        handleChange decimals s value =
          { inputAmount := value, amount := s.amount,
            error := some AppError.parsingError }) ∧
    (value ≠ "" → parseUnits value decimals = Except.error () →
        handleChange decimals s value =
          { inputAmount := value, amount := s.amount,
            error := some AppError.parsingError }) ∧
    parseUnits ("1.5") 2 = Except.ok 150 := by
  refine ⟨?_, ?_, ?_, ?_, by rfl⟩
  · intro h
    simp [handleChange, h]
  · intro a hne hok h0
    simp [handleChange, hne, hok, not_lt.mpr h0]
  · intro a hne hok hneg
    simp [handleChange, hne, hok, hneg]
  · intro hne herr
    simp [handleChange, hne, herr]

/-- Witness for C4: from a state with a committed amount and an
insufficient-balance error, clearing the field commits zero and clears the
error; `"2.5"` commits `2.5 * 10 ^ 18` and keeps the non-parsing error;
`"-1"` and `"x"` set a parsing error and keep the committed amount. -/
theorem handleChange_spec_witness :
    handleChange 18 demoState ("") =
        { inputAmount := (""), amount := 0, error := none } ∧
      handleChange 18 demoState ("2.5") =
        { inputAmount := ("2.5"), amount := 25 * 10 ^ 17,
          error := some AppError.insufficientBalance } ∧
      handleChange 18 demoState ("-1") =
        { inputAmount := ("-1"), amount := 9 * 10 ^ 18,
          error := some AppError.parsingError } ∧
      handleChange 18 demoState ("x") =
        { inputAmount := ("x"), amount := 9 * 10 ^ 18,
          error := some AppError.parsingError } := by
  refine ⟨(handleChange_spec 18 demoState ("")).1 rfl, ?_, ?_, ?_⟩
  · exact ((handleChange_spec 18 demoState ("2.5")).2.1 (25 * 10 ^ 17)
      (by decide) (by rfl) (by decide)).trans (by decide)
  · exact ((handleChange_spec 18 demoState ("-1")).2.2.1 (-(10 ^ 18))
      (by decide) (by rfl) (by decide)).trans (by decide)
  · exact ((handleChange_spec 18 demoState ("x")).2.2.2.1
      (by decide) (by rfl)).trans (by decide)

/-- **C5.** The balance-sufficiency effect with a non-empty input, a positive
committed amount, loaded balances and a balance entry at the selected index:
it sets "Insufficient balance." exactly when the amount exceeds the available
balance, the balance being first reduced by the fee-estimation buffer when
the selected token is the native asset, and otherwise just clears any
non-parsing error. -/
theorem checkBalance_spec (bs : List Int) (amount : Int) (token : String)
    (tokenList : List TokenInfo) (inputAmount : String) (error : Option AppError)
    (i : Nat) (t : TokenInfo) (balance : Int)
    (hin : inputAmount ≠ "") (hpos : 0 < amount)
    (hidx : tokenList.findIdx? (fun tk => tk.address == token) = some i)
    (ht : tokenList[i]? = some t)
    (hbal : bs[i]? = some balance) :
    checkBalanceEffect (some bs) amount token tokenList inputAmount error =
      if (if t.symbol = ("ETH") then balance - feeEstimationWei else balance) < amount
      then some AppError.insufficientBalance
      else clearNonParsingError error := by
  by_cases hEth : t.symbol = ("ETH") <;>
    simp [checkBalanceEffect, hin, hpos, hidx, ht, hbal, isEthAt, hEth]

/-- Witness for C5 at the spec's example: balances `[100, 50]` ether, the
native asset at index 1 and no prior error; an amount of 51 ether triggers
the insufficient-balance error and an amount of 49 ether does not. -/
theorem checkBalance_spec_witness :
    checkBalanceEffect (some [100 * 10 ^ 18, 50 * 10 ^ 18]) (51 * 10 ^ 18) ("0xWETH")
        demoTokenList ("51") none = some AppError.insufficientBalance ∧
      checkBalanceEffect (some [100 * 10 ^ 18, 50 * 10 ^ 18]) (49 * 10 ^ 18) ("0xWETH")
        demoTokenList ("49") none = none := by
  constructor
  · exact (checkBalance_spec [100 * 10 ^ 18, 50 * 10 ^ 18] (51 * 10 ^ 18) ("0xWETH")
      demoTokenList ("51") none 1 ethToken (50 * 10 ^ 18)
      (by decide) (by decide) (by rfl) (by rfl) (by rfl)).trans (by decide)
  · exact (checkBalance_spec [100 * 10 ^ 18, 50 * 10 ^ 18] (49 * 10 ^ 18) ("0xWETH")
      demoTokenList ("49") none 1 ethToken (50 * 10 ^ 18)
      (by decide) (by decide) (by rfl) (by rfl) (by rfl)).trans (by decide)

/-- **C9.** When the balance entry at the selected token's position is absent
(no index matches the token, or the balances array is too short), the
balance-sufficiency effect never sets the insufficient-balance error, for
every committed amount. -/
theorem checkBalance_missing_balance (bs : List Int) (amount : Int) (token : String)
    (tokenList : List TokenInfo) (inputAmount : String) (error : Option AppError)
    (hin : inputAmount ≠ "")
    (habs : ∀ i, tokenList.findIdx? (fun tk => tk.address == token) = some i →
      bs[i]? = none) :
    checkBalanceEffect (some bs) amount token tokenList inputAmount error ≠
      some AppError.insufficientBalance := by
  by_cases hpos : 0 < amount
  · cases hidx : tokenList.findIdx? (fun tk => tk.address == token) with
    | none =>
      simp [checkBalanceEffect, hin, hpos, hidx, clearNonParsingError_ne_insufficient]
    | some i =>
      simp [checkBalanceEffect, hin, hpos, hidx, habs i hidx,
        clearNonParsingError_ne_insufficient]
  · simp [checkBalanceEffect, hin, hpos, clearNonParsingError_ne_insufficient]

/-- Witness for C9: a token absent from the token list, with a huge committed
amount against a single tiny balance, still produces no insufficient-balance
error. -/
theorem checkBalance_missing_balance_witness :
    checkBalanceEffect (some [(5 : Int)]) (10 ^ 30) ("0xNONE") demoTokenList
        ("1000000000000") none ≠ some AppError.insufficientBalance := by
  apply checkBalance_missing_balance
  · decide
  · intro i h
    rw [show demoTokenList.findIdx? (fun tk => tk.address == ("0xNONE")) = none from rfl] at h
    exact Option.noConfusion h

/-- **C6.** The Max action with loaded balances, a selected token present in
the token list and a balance entry at its index: it commits the full
available balance and shows it in the input, the native asset's balance being
first reduced by the fee-estimation buffer and floored at zero. -/
theorem handleMaxClick_spec (bs : List Int) (sel : TokenInfo)
    (tokenList : List TokenInfo) (s : CoinState) (i : Nat) (t : TokenInfo) (balance : Int)
    (hidx : tokenList.findIdx? (fun tk => tk.address == sel.address) = some i)
    (ht : tokenList[i]? = some t)
    (hbal : bs[i]? = some balance) :
    handleMaxClick (some bs) (some sel) tokenList s =
      some { s with
        amount := if t.symbol = ("ETH") then max (balance - feeEstimationWei) 0 else balance,
        inputAmount := formatUnits
          (if t.symbol = ("ETH") then max (balance - feeEstimationWei) 0 else balance)
          sel.decimals } := by
  by_cases hEth : t.symbol = ("ETH") <;>
    simp [handleMaxClick, hidx, ht, hbal, hEth]

/-- Witness for C6: Max on the native asset with a 50-ether balance commits
`50 - .004 = 49.996` ether and displays `"49.996"`. -/
theorem handleMaxClick_spec_witness :
    handleMaxClick (some [100 * 10 ^ 18, 50 * 10 ^ 18]) (some ethToken) demoTokenList
        { inputAmount := ("1"), amount := 10 ^ 18, error := none } =
      some { inputAmount := ("49.996"), amount := 49996 * 10 ^ 15, error := none } :=
  (handleMaxClick_spec [100 * 10 ^ 18, 50 * 10 ^ 18] ethToken demoTokenList
    { inputAmount := ("1"), amount := 10 ^ 18, error := none } 1 ethToken (50 * 10 ^ 18)
    (by rfl) (by rfl) (by rfl)).trans (by decide)

/-- **C7.** The displayed error message follows the precedence: an explicit
error (parsing or insufficient balance) is shown before the
amount-too-low warning, which is shown before the insufficient-liquidity
warning; when none of these applies (including when no fee quote is loaded),
nothing is displayed. -/
theorem displayed_precedence (error : Option AppError) (f : Fees) (amount : Int) :
    (∀ e, error = some e →
        displayedError error (some f) amount = some (DisplayMsg.fromError e)) ∧
    (error = none → f.isAmountTooLow = true → 0 < amount →
        displayedError error (some f) amount = some DisplayMsg.amountTooLow) ∧
    (error = none → f.isAmountTooLow = false → f.isLiquidityInsufficient = true →
        0 < amount →
        displayedError error (some f) amount = some DisplayMsg.liquidityInsufficient) ∧
    (error = none → f.isAmountTooLow = false → f.isLiquidityInsufficient = false →
        displayedError error (some f) amount = none) ∧
    (error = none → amount ≤ 0 → displayedError error (some f) amount = none) ∧
    displayedError none none amount = none := by
  refine ⟨?_, ?_, ?_, ?_, ?_, ?_⟩
  · intro e he
    simp [displayedError, showError, errorMsg, he]
  · intro he hlow hpos
    simp [displayedError, showError, errorMsg, he, hlow, hpos]
  · intro he hlow hliq hpos
    simp [displayedError, showError, errorMsg, he, hlow, hliq, hpos]
  · intro he hlow hliq
    simp [displayedError, showError, errorMsg, he, hlow, hliq]
  · intro he hle
    simp [displayedError, showError, errorMsg, he, not_lt.mpr hle]
  · simp [displayedError, showError, errorMsg]

/-- Witness for C7: with both fee flags set and a parsing error present, the
explicit error wins. -/
theorem displayed_precedence_witness :
    displayedError (some AppError.parsingError)
        (some { isAmountTooLow := true, isLiquidityInsufficient := true }) (10 ^ 18) =
      some (DisplayMsg.fromError AppError.parsingError) :=
  (displayed_precedence (some AppError.parsingError)
      { isAmountTooLow := true, isLiquidityInsufficient := true } (10 ^ 18)).1
    AppError.parsingError rfl

/-- **C10.** The fee-based warnings are displayed only when the committed
amount is strictly positive, whereas an explicit error is displayed whatever
the committed amount. -/
theorem showError_amount_gate (error : Option AppError) (fees : Option Fees)
    (amount : Int) :
    ((displayedError error fees amount = some DisplayMsg.amountTooLow ∨
        displayedError error fees amount = some DisplayMsg.liquidityInsufficient) →
      0 < amount) ∧
    (∀ e, error = some e →
      displayedError error fees amount = some (DisplayMsg.fromError e)) := by
  constructor
  · intro h
    by_contra hle
    cases error with
    | some e => simp [displayedError, showError, errorMsg] at h
    | none =>
      rw [not_lt] at hle
      simp [displayedError, showError, errorMsg, not_lt.mpr hle] at h
  · intro e he
    simp [displayedError, showError, errorMsg, he]

/-- Witness for C10: an insufficient-balance error is displayed even with a
zero committed amount, while both fee flags alone display nothing at zero. -/
theorem showError_amount_gate_witness :
    displayedError (some AppError.insufficientBalance)
        (some { isAmountTooLow := false, isLiquidityInsufficient := false }) 0 =
      some (DisplayMsg.fromError AppError.insufficientBalance) :=
  (showError_amount_gate (some AppError.insufficientBalance)
      (some { isAmountTooLow := false, isLiquidityInsufficient := false }) 0).2
    AppError.insufficientBalance rfl

end BridgeFrontend
